import Mathlib

/-!
Verification development for the `smart_city_demonstrators` repository
(three Arduino exhibit sketches: watering, heat, traffic).

The sketches are straight-line, single-threaded programs that poll a
trigger and, on firing, drive a fixed sequence of output-device writes
separated by blocking delays.  We embed them shallowly:

* every call to a device-driver primitive (NeoPixel strip, TM1637 digit
  display, RGB LCD, chainable LED, `digitalWrite`, `delay`) is recorded
  as an `Ev` event, so a run of a sketch function is a `List Ev` trace;
* device state is an explicit `DevState` record and `applyEv` gives the
  driver semantics of each primitive, so state after a run is a fold;
* `int`/`long` values are `Int`, `float` sensor values are `ℚ` with exact
  arithmetic, and the C cast `(int)x` is `cIntCast` (truncation toward
  zero).

Sketch-specific code lives in namespaces `Watering`, `Heat`, `Traffic`,
with the source's own identifier names kept where possible.
-/

/-- RGB color triple as produced by `Color(r,g,b)` / `setColorRGB` / `setRGB`. -/
structure Color where
  r : Nat
  g : Nat
  b : Nat
deriving DecidableEq, Repr

/-- Color `(200, 0, 0)`, the fixed "active" chaser color in all three sketches. -/
def redC : Color := ⟨200, 0, 0⟩

/-- Color `(0, 0, 0)`, the "off" pixel color. -/
def offC : Color := ⟨0, 0, 0⟩

/-- Arduino pins that the sketches address explicitly. -/
inductive Pin
  | a0
  | a1
  | a3
deriving DecidableEq, Repr

/-- The two NeoPixel strips (`A0Strip`, `A1Strip`). -/
inductive StripId
  | a0strip
  | a1strip
deriving DecidableEq, Repr

/-- The two TM1637 digit displays (`D5Digit`, `D7Digit`). -/
inductive DigitId
  | d5
  | d7
deriving DecidableEq, Repr

/-- One device-driver primitive call, as issued by the sketches. -/
inductive Ev
  | delayMs (ms : Nat)
  | stripSet (s : StripId) (i : Int) (c : Color)
  | stripShow (s : StripId)
  | stripClear (s : StripId)
  | stripBegin (s : StripId)
  | digitBrightness (d : DigitId) (b : Nat)
  | digitShow (d : DigitId) (v : Int)
  | digitClear (d : DigitId)
  | lcdClear
  | lcdSetRGB (r g b : Nat)
  | lcdSetCursor (col row : Nat)
  | lcdPrint (s : String)
  | lcdBlink
  | lcdNoBlink
  | ledSetColor (r g b : Nat)
  | pinWrite (p : Pin) (hi : Bool)
deriving DecidableEq, Repr

/-- State of one NeoPixel strip: the constructor-fixed LED count, the
pixel buffer, the last committed (`show`n) frame, `begin` flag and
brightness. -/
structure StripState where
  numLEDs : Nat
  pixels : List Color
  shown : List Color
  begun : Bool
  brightness : Nat
deriving DecidableEq, Repr

/-- State of one TM1637 digit display: brightness and displayed value
(`none` after `clear`). -/
structure DigitState where
  brightness : Nat
  content : Option Int
deriving DecidableEq, Repr

/-- State of the 16x2 RGB LCD: backlight, blink attribute, cursor and the
two character rows. -/
structure LcdState where
  backlight : Color
  blink : Bool
  cursor : Nat × Nat
  row0 : List Char
  row1 : List Char
deriving DecidableEq, Repr

/-- Observable snapshot of the whole output-device set of one exhibit,
plus the output latch of pin A3 (written by the watering `resetAll`). -/
structure DevState where
  stripA : StripState
  stripB : StripState
  d5 : DigitState
  d7 : DigitState
  lcd : LcdState
  led : Color
  a3Out : Bool
deriving DecidableEq, Repr

/-- Strip selected by a `StripId`. -/
def stripOf (d : DevState) : StripId → StripState
  | .a0strip => d.stripA
  | .a1strip => d.stripB

/-- Update the strip selected by a `StripId`. -/
def updStrip (d : DevState) : StripId → (StripState → StripState) → DevState
  | .a0strip, f => { d with stripA := f d.stripA }
  | .a1strip, f => { d with stripB := f d.stripB }

/-- Digit display selected by a `DigitId`. -/
def digitOf (d : DevState) : DigitId → DigitState
  | .d5 => d.d5
  | .d7 => d.d7

/-- Update the digit display selected by a `DigitId`. -/
def updDigit (d : DevState) : DigitId → (DigitState → DigitState) → DevState
  | .d5, f => { d with d5 := f d.d5 }
  | .d7, f => { d with d7 := f d.d7 }

/-- Blank 16-character LCD row. -/
def blankRow : List Char := List.replicate 16 ' '

/-- Overwrite characters of a row starting at a column (writes past the
end of the row are dropped, as `List.set` out of range is a no-op). -/
def overlay : List Char → Nat → List Char → List Char
  | row, _, [] => row
  | row, col, ch :: t => overlay (row.set col ch) (col + 1) t

/-- Semantics of `print` at the current cursor position. -/
def lcdPrintAt (st : LcdState) (s : String) : LcdState :=
  let chars := s.toList
  if st.cursor.2 = 0 then
    { st with row0 := overlay st.row0 st.cursor.1 chars
              cursor := (st.cursor.1 + chars.length, st.cursor.2) }
  else
    { st with row1 := overlay st.row1 st.cursor.1 chars
              cursor := (st.cursor.1 + chars.length, st.cursor.2) }

/-- Index conversion applied by `Adafruit_NeoPixel::setPixelColor`, whose
parameter is a `uint16_t`: the sketches pass a C `int`, which is
converted modulo 2^16 (so `-1` becomes 65535). -/
def uintIndex (i : Int) : Nat := (i % 65536).toNat

/-- Driver semantics of one primitive call.  `stripSet` reproduces the
NeoPixel guard `if (n < numLEDs)`: out-of-range indices are no-ops. -/
def applyEv (d : DevState) : Ev → DevState
  | .delayMs _ => d
  | .stripSet s i c =>
      updStrip d s fun st =>
        if uintIndex i < st.numLEDs then { st with pixels := st.pixels.set (uintIndex i) c }
        else st
  | .stripShow s => updStrip d s fun st => { st with shown := st.pixels }
  | .stripClear s => updStrip d s fun st => { st with pixels := List.replicate st.numLEDs offC }
  | .stripBegin s => updStrip d s fun st => { st with begun := true }
  | .digitBrightness dg b => updDigit d dg fun st => { st with brightness := b }
  | .digitShow dg v => updDigit d dg fun st => { st with content := some v }
  | .digitClear dg => updDigit d dg fun st => { st with content := none }
  | .lcdClear => { d with lcd := { d.lcd with row0 := blankRow, row1 := blankRow, cursor := (0, 0) } }
  | .lcdSetRGB r g b => { d with lcd := { d.lcd with backlight := ⟨r, g, b⟩ } }
  | .lcdSetCursor col row => { d with lcd := { d.lcd with cursor := (col, row) } }
  | .lcdPrint s => { d with lcd := lcdPrintAt d.lcd s }
  | .lcdBlink => { d with lcd := { d.lcd with blink := true } }
  | .lcdNoBlink => { d with lcd := { d.lcd with blink := false } }
  | .ledSetColor r g b => { d with led := ⟨r, g, b⟩ }
  | .pinWrite p hi =>
      match p with
      | .a3 => { d with a3Out := hi }
      | _ => d

/-- Run a trace of primitive calls against a device state. -/
def runEvs (d : DevState) (evs : List Ev) : DevState := evs.foldl applyEv d

/-- C cast `(int)q` for an exact rational: truncation toward zero. -/
def cIntCast (q : ℚ) : ℤ := if 0 ≤ q then ⌊q⌋ else ⌈q⌉

/-- Trace of `animateStrip(Strip, n)` (identical in all three sketches):
`for (int i = 0; i <= n; i += 1)` set pixel `i` to red, set pixel `i - 1`
to off, `show`, `delay(400)`; afterwards `clear` and `show`. -/
def animateStripTrace (s : StripId) (n : Nat) : List Ev :=
  (List.range (n + 1)).flatMap
    (fun i => [Ev.stripSet s i redC, Ev.stripSet s ((i : Int) - 1) offC,
               Ev.stripShow s, Ev.delayMs 400])
  ++ [Ev.stripClear s, Ev.stripShow s]

namespace Watering

/-- Source constant `int intA0LEDStripNumber = 8` (watering sketch). -/
def intA0LEDStripNumber : Nat := 8

/-- Source constant `int intA1LEDStripNumber = 10` (watering sketch). -/
def intA1LEDStripNumber : Nat := 10

/-- Source constant `int intDigitBaseNumberMin = 20`. -/
def intDigitBaseNumberMin : Int := 20

/-- Source constant `int intDigitBaseNumberMax = 40`. -/
def intDigitBaseNumberMax : Int := 40

/-- Trace of the watering `resetAll()`: idle lamp color, idle LCD text on
a yellow backlight, both strips re-begun, cleared and shown, pin A3
driven LOW, both digit displays cleared. -/
def resetAllTrace : List Ev :=
  [Ev.ledSetColor 100 20 0,
   Ev.lcdClear, Ev.lcdSetRGB 150 100 0,
   Ev.lcdSetCursor 0 0, Ev.lcdPrint "Keine neuen",
   Ev.lcdSetCursor 0 1, Ev.lcdPrint "Daten.",
   Ev.stripBegin .a0strip, Ev.stripClear .a0strip, Ev.stripShow .a0strip,
   Ev.stripBegin .a1strip, Ev.stripClear .a1strip, Ev.stripShow .a1strip,
   Ev.pinWrite .a3 false,
   Ev.digitClear .d5, Ev.digitClear .d7]

/-- Body of the phase-5 watering ramp: one recursive step per loop value
`i`, carrying the two chaser counters `intA0LEDStripCounter` and
`intA1LEDStripCounter` exactly as the source mutates them. -/
def rampAux (v : Int) : List Nat → Nat → Nat → List Ev
  | [], _, _ => []
  | i :: rest, cA, cB =>
    let cA' := if cA = intA0LEDStripNumber then 0 else cA
    let cB' := if cB = intA1LEDStripNumber then 0 else cB
    [Ev.lcdSetRGB 0 i (59 - i), Ev.delayMs 150,
     Ev.digitShow .d5 (v + i), Ev.digitShow .d7 (v + i)]
    ++ (if cA = intA0LEDStripNumber then [Ev.stripClear .a0strip] else [])
    ++ (if cB = intA1LEDStripNumber then [Ev.stripClear .a1strip] else [])
    ++ [Ev.stripSet .a0strip ((cA' : Int) - 1) offC,
        Ev.stripSet .a1strip ((cB' : Int) - 1) offC,
        Ev.stripSet .a0strip (cA' : Int) redC,
        Ev.stripSet .a1strip (cB' : Int) redC,
        Ev.stripShow .a0strip, Ev.stripShow .a1strip]
    ++ rampAux v rest (cA' + 1) (cB' + 1)

/-- Trace of the phase-5 ramp `for (int i = 0; i <= 59; i += 2)`, i.e.
`i` running over `0, 2, ..., 58`, with both counters starting at 0. -/
def rampTrace (v : Int) : List Ev :=
  rampAux v ((List.range 30).map fun k => 2 * k) 0 0

/-- Trace of one `loop()` iteration of the watering sketch, given the
level read from A3 and the oracle of successive `random(...)` results
(the k-th call made by this iteration returns `rand k`; calls 0-9 are the
slot-machine loop, call 10 is `intRandomLEDValue`). -/
def loopTrace (trigger : Bool) (rand : Nat → Int) : List Ev :=
  if trigger then
    [Ev.digitBrightness .d5 4]
    ++ (List.range 10).flatMap
        (fun j => [Ev.digitShow .d5 (rand j), Ev.delayMs 100])
    ++ [Ev.digitShow .d5 (rand 10), Ev.delayMs 500]
    ++ animateStripTrace .a0strip intA0LEDStripNumber
    ++ [Ev.digitBrightness .d7 0, Ev.digitShow .d7 (rand 10)]
    ++ (List.range 4).flatMap
        (fun i => [Ev.digitBrightness .d7 (i + 1), Ev.digitShow .d7 (rand 10),
                   Ev.delayMs 500])
    ++ animateStripTrace .a1strip intA1LEDStripNumber
    ++ [Ev.lcdClear, Ev.lcdSetRGB 200 0 0,
        Ev.lcdSetCursor 0 0, Ev.lcdPrint "Baum hat wenig",
        Ev.lcdSetCursor 0 1, Ev.lcdPrint "Wasser.",
        Ev.lcdBlink, Ev.delayMs 5000, Ev.lcdNoBlink]
    ++ [Ev.lcdClear, Ev.lcdSetRGB 0 0 200,
        Ev.lcdSetCursor 0 0, Ev.lcdPrint "Bitte giessen."]
    ++ rampTrace (rand 10)
    ++ [Ev.stripClear .a0strip, Ev.stripShow .a0strip,
        Ev.stripClear .a1strip, Ev.stripShow .a1strip]
    ++ [Ev.lcdClear, Ev.lcdSetRGB 0 200 0,
        Ev.lcdSetCursor 0 0, Ev.lcdPrint "Baum hat genug",
        Ev.lcdSetCursor 0 1, Ev.lcdPrint "Wasser.", Ev.delayMs 2000,
        Ev.ledSetColor 0 150 0, Ev.delayMs 5000]
    ++ resetAllTrace
  else []

end Watering

/-- Events the end-to-end claim singles out inside the phase-5 ramp:
backlight updates, delays and digit renders. -/
def rampCore : Ev → Bool
  | .lcdSetRGB _ _ _ => true
  | .delayMs _ => true
  | .digitShow _ _ => true
  | _ => false

/-- Spec-side transcription of the end-to-end watering scenario, phase by
phase with the step counts the spec states: 10 random renders at 100 ms,
the final value `V = rand 10`, 9 chaser steps on strip A at 400 ms, 5
renders of `V` on digit B at brightness 0-4, 11 chaser steps on strip B,
the 5 s blinking warning, the instruction text, the 30-step ramp (whose
chaser interleaving is `Watering.rampTrace`), the 2 s success text, the
green lamp held 5 s, and the Baseline/Reset trace. -/
def wateringSpecTrace (rand : Nat → Int) : List Ev :=
  [Ev.digitBrightness .d5 4]
  ++ (List.range 10).flatMap
      (fun j => [Ev.digitShow .d5 (rand j), Ev.delayMs 100])
  ++ [Ev.digitShow .d5 (rand 10), Ev.delayMs 500]
  ++ ((List.range 9).flatMap
      (fun i => [Ev.stripSet .a0strip i redC, Ev.stripSet .a0strip ((i : Int) - 1) offC,
                 Ev.stripShow .a0strip, Ev.delayMs 400])
      ++ [Ev.stripClear .a0strip, Ev.stripShow .a0strip])
  ++ [Ev.digitBrightness .d7 0, Ev.digitShow .d7 (rand 10)]
  ++ (List.range 4).flatMap
      (fun i => [Ev.digitBrightness .d7 (i + 1), Ev.digitShow .d7 (rand 10),
                 Ev.delayMs 500])
  ++ ((List.range 11).flatMap
      (fun i => [Ev.stripSet .a1strip i redC, Ev.stripSet .a1strip ((i : Int) - 1) offC,
                 Ev.stripShow .a1strip, Ev.delayMs 400])
      ++ [Ev.stripClear .a1strip, Ev.stripShow .a1strip])
  ++ [Ev.lcdClear, Ev.lcdSetRGB 200 0 0,
      Ev.lcdSetCursor 0 0, Ev.lcdPrint "Baum hat wenig",
      Ev.lcdSetCursor 0 1, Ev.lcdPrint "Wasser.",
      Ev.lcdBlink, Ev.delayMs 5000, Ev.lcdNoBlink]
  ++ [Ev.lcdClear, Ev.lcdSetRGB 0 0 200,
      Ev.lcdSetCursor 0 0, Ev.lcdPrint "Bitte giessen."]
  ++ Watering.rampTrace (rand 10)
  ++ [Ev.stripClear .a0strip, Ev.stripShow .a0strip,
      Ev.stripClear .a1strip, Ev.stripShow .a1strip]
  ++ [Ev.lcdClear, Ev.lcdSetRGB 0 200 0,
      Ev.lcdSetCursor 0 0, Ev.lcdPrint "Baum hat genug",
      Ev.lcdSetCursor 0 1, Ev.lcdPrint "Wasser.", Ev.delayMs 2000,
      Ev.ledSetColor 0 150 0, Ev.delayMs 5000]
  ++ Watering.resetAllTrace

namespace Heat

/-- Source constant `int intA0LEDStripNumber = 8` (heat sketch). -/
def intA0LEDStripNumber : Nat := 8

/-- Source constant `int intA1LEDStripNumber = 10` (heat sketch). -/
def intA1LEDStripNumber : Nat := 10

/-- Source constant `int MaxCelsiusIncrease = 1`. -/
def MaxCelsiusIncrease : ℤ := 1

/-- Trigger state of the heat sketch: the two globals the incremental
policy mutates (`TemperaturePrevious`, `TemperatureTarget`).  Both are
zero-initialized at startup; `TemperatureTarget = 0` means "unarmed". -/
structure HeatState where
  TemperaturePrevious : ℚ
  TemperatureTarget : ℤ
deriving DecidableEq, Repr

/-- Trace of the heat `resetAll()` (device writes only; the accompanying
`TemperatureTarget = 0` assignment is tracked in `HeatState`). -/
def resetAllTrace : List Ev :=
  [Ev.lcdClear, Ev.lcdSetRGB 0 150 0,
   Ev.lcdSetCursor 0 0, Ev.lcdPrint "Temperatur",
   Ev.lcdSetCursor 0 1, Ev.lcdPrint "normal.",
   Ev.stripBegin .a0strip, Ev.stripClear .a0strip, Ev.stripShow .a0strip,
   Ev.stripBegin .a1strip, Ev.stripClear .a1strip, Ev.stripShow .a1strip,
   Ev.digitClear .d7,
   Ev.ledSetColor 0 150 0]

/-- Trace of the alert sequence the heat sketch runs once
`(int)TemperatureCurrent >= TemperatureTarget`: triple red blink, strip A
animation, digit-B fade-in of the current temperature, strip B animation,
5 s blinking warning text, 7 s hydration text, then `resetAll`. -/
def fireTrace (t : ℚ) : List Ev :=
  (List.range 3).flatMap
    (fun _ => [Ev.ledSetColor 10 0 0, Ev.delayMs 200,
               Ev.ledSetColor 200 0 0, Ev.delayMs 200])
  ++ animateStripTrace .a0strip intA0LEDStripNumber
  ++ [Ev.digitBrightness .d7 0, Ev.digitShow .d7 (cIntCast t)]
  ++ (List.range 4).flatMap
      (fun i => [Ev.digitBrightness .d7 (i + 1), Ev.digitShow .d7 (cIntCast t),
                 Ev.delayMs 500])
  ++ [Ev.delayMs 500]
  ++ animateStripTrace .a1strip intA1LEDStripNumber
  ++ [Ev.lcdClear, Ev.lcdSetRGB 200 0 0,
      Ev.lcdSetCursor 0 0, Ev.lcdPrint "Starker Tempe-",
      Ev.lcdSetCursor 0 1, Ev.lcdPrint "raturanstieg!",
      Ev.lcdBlink, Ev.delayMs 5000, Ev.lcdNoBlink]
  ++ [Ev.lcdClear, Ev.lcdSetRGB 0 0 50,
      Ev.lcdSetCursor 0 0, Ev.lcdPrint "Bitte genug",
      Ev.lcdSetCursor 0 1, Ev.lcdPrint "trinken.",
      Ev.delayMs 7000]
  ++ resetAllTrace

/-- One `loop()` iteration of the heat sketch.  `reading` is the result
of `readTempAndHumidity` (`none` on sensor failure), `resample` the
result of the re-read performed inside the alert branch (whose return
value the source ignores: on failure the array keeps the old reading, so
`resample.getD t` is used).  Returns the new trigger state, whether the
alert sequence fired, and the device trace. -/
def loopStep (s : HeatState) (reading resample : Option ℚ) :
    HeatState × Bool × List Ev :=
  match reading with
  | none => (s, false, [Ev.delayMs 1500])
  | some t =>
    let prev := if s.TemperaturePrevious = 0 then t else s.TemperaturePrevious
    let base := [Ev.delayMs 1500, Ev.digitShow .d5 (cIntCast t)]
    if prev + 0.2 ≤ t then
      let tgt := if s.TemperatureTarget = 0 then cIntCast t + MaxCelsiusIncrease
                 else s.TemperatureTarget
      if tgt ≤ cIntCast t then
        let t2 := resample.getD t
        (⟨t2, 0⟩, true, base ++ fireTrace t)
      else
        (⟨t, tgt⟩, false, base)
    else
      (⟨t, 0⟩, false, base ++ resetAllTrace)

/-- Run of successive `loop()` iterations over a list of
(reading, resample) pairs, counting how many times the alert fired. -/
def loopRun : HeatState → List (Option ℚ × Option ℚ) → HeatState × Nat × List Ev
  | s, [] => (s, 0, [])
  | s, p :: ps =>
    let r1 := loopStep s p.1 p.2
    let r2 := loopRun r1.1 ps
    (r2.1, (if r1.2.1 then 1 else 0) + r2.2.1, r1.2.2 ++ r2.2.2)

/-- Combined effect of the heat `resetAll()` on devices and trigger
state: the device trace plus `TemperatureTarget = 0`. -/
def resetAllFull (p : DevState × HeatState) : DevState × HeatState :=
  (runEvs p.1 resetAllTrace, ⟨p.2.TemperaturePrevious, 0⟩)

/-- Samples each exceeding their predecessor by at least the 0.2 band. -/
def bandChain : ℚ → List ℚ → Prop
  | _, [] => True
  | a, b :: l => a + 0.2 ≤ b ∧ bandChain b l

/-- Samples each staying strictly inside the 0.2 band over their
predecessor. -/
def belowChain : ℚ → List ℚ → Prop
  | _, [] => True
  | a, b :: l => b < a + 0.2 ∧ belowChain b l

end Heat

namespace Traffic

/-- Source constant `int intA0LEDStripNumber = 11` (traffic sketch). -/
def intA0LEDStripNumber : Nat := 11

/-- Source constant `int intA1LEDStripNumber = 11` (traffic sketch). -/
def intA1LEDStripNumber : Nat := 11

/-- Source constant `int LightDifference = 50`. -/
def LightDifference : ℤ := 50

/-- Initial value of the global `int LightPrevious = 0`. -/
def LightPreviousInit : ℤ := 0

/-- Trace of the traffic `resetAll()`. -/
def resetAllTrace : List Ev :=
  [Ev.lcdClear, Ev.lcdSetRGB 0 150 0,
   Ev.lcdSetCursor 0 0, Ev.lcdPrint "50 Parkplaetze",
   Ev.lcdSetCursor 0 1, Ev.lcdPrint "frei.",
   Ev.stripBegin .a0strip, Ev.stripClear .a0strip, Ev.stripShow .a0strip,
   Ev.stripBegin .a1strip, Ev.stripClear .a1strip, Ev.stripShow .a1strip,
   Ev.digitClear .d7,
   Ev.ledSetColor 0 150 0]

/-- Trace of the parking-lot-full sequence: red lamp, strip A animation,
fade-in of 50 on the digit display, countdown 50..0, strip B animation,
5 s blinking "full" text, 7 s public-transport text, then `resetAll`. -/
def fireTrace : List Ev :=
  [Ev.ledSetColor 200 0 0]
  ++ animateStripTrace .a0strip intA0LEDStripNumber
  ++ [Ev.digitBrightness .d7 0, Ev.digitShow .d7 50]
  ++ (List.range 4).flatMap
      (fun i => [Ev.digitBrightness .d7 (i + 1), Ev.digitShow .d7 50,
                 Ev.delayMs 500])
  ++ (List.range 51).flatMap
      (fun k => [Ev.digitShow .d7 (50 - (k : Int)), Ev.delayMs 10])
  ++ [Ev.delayMs 500]
  ++ animateStripTrace .a1strip intA1LEDStripNumber
  ++ [Ev.lcdClear, Ev.lcdSetRGB 200 0 0,
      Ev.lcdSetCursor 0 0, Ev.lcdPrint "Alle Park-",
      Ev.lcdSetCursor 0 1, Ev.lcdPrint "plaetze belegt.",
      Ev.lcdBlink, Ev.delayMs 5000, Ev.lcdNoBlink]
  ++ [Ev.lcdClear, Ev.lcdSetRGB 0 0 50,
      Ev.lcdSetCursor 0 0, Ev.lcdPrint "Bitte Nahverkehr",
      Ev.lcdSetCursor 0 1, Ev.lcdPrint "nutzen. Danke!",
      Ev.delayMs 7000]
  ++ resetAllTrace

/-- One `loop()` iteration of the traffic sketch: 1 s delay, read the
light level, fire iff `LightCurrent <= LightPrevious - LightDifference`,
and in every case store the current reading as the new previous.
Returns (new `LightPrevious`, fired, device trace). -/
def loopStep (LightPrevious LightCurrent : ℤ) : ℤ × Bool × List Ev :=
  if LightCurrent ≤ LightPrevious - LightDifference then
    (LightCurrent, true, Ev.delayMs 1000 :: fireTrace)
  else
    (LightCurrent, false, [Ev.delayMs 1000])

end Traffic

/-- Predicate singling out `digitalWrite` events. -/
def isPinWrite : Ev → Bool
  | .pinWrite _ _ => true
  | _ => false

set_option maxRecDepth 20000 in
/-- C1: whenever the watering trigger reads HIGH, `loop` runs exactly the
fixed phase sequence of the end-to-end scenario, in order and with no
branching: 10 pseudo-random renders on digit A at 100 ms, the final value
`V = rand 10`, 9 chaser steps (indices 0..8) on strip A at 400 ms, 5
renders of `V` on digit B at brightness 0..4, 11 chaser steps on strip B,
the warning text blinking for 5 s, the instruction text, the 30-step ramp
(`i = 0, 2, ..., 58`, 150 ms per step) updating the backlight and
rendering `V + i` on both digit displays (second conjunct), the success
text held 2 s, the lamp set green and held 5 s, and finally `resetAll`. -/
theorem c1_watering_end_to_end (rand : Nat → Int) :
    Watering.loopTrace true rand = wateringSpecTrace rand
    ∧ ∀ v : Int,
        (Watering.rampTrace v).filter rampCore =
          (List.range 30).flatMap
            (fun k => [Ev.lcdSetRGB 0 (2 * k) (59 - 2 * k), Ev.delayMs 150,
                       Ev.digitShow .d5 (v + (2 * k : Nat)),
                       Ev.digitShow .d7 (v + (2 * k : Nat))]) :=
  ⟨rfl, fun _ => rfl⟩

set_option maxRecDepth 20000 in
set_option maxHeartbeats 2000000 in
/-- C5: every variant of `resetAll` is idempotent — running its trace a
second time from the state it produced (for the heat variant, also
re-clearing the latched `TemperatureTarget`) changes nothing, for every
starting device and trigger state. -/
theorem c5_resetAll_idempotent :
    (∀ d : DevState,
        runEvs (runEvs d Watering.resetAllTrace) Watering.resetAllTrace
          = runEvs d Watering.resetAllTrace)
    ∧ (∀ p : DevState × Heat.HeatState,
        Heat.resetAllFull (Heat.resetAllFull p) = Heat.resetAllFull p)
    ∧ (∀ d : DevState,
        runEvs (runEvs d Traffic.resetAllTrace) Traffic.resetAllTrace
          = runEvs d Traffic.resetAllTrace) := by
  refine ⟨fun d => ?_, fun p => ?_, fun d => ?_⟩
  · simp [runEvs, Watering.resetAllTrace, applyEv, updStrip, updDigit, lcdPrintAt]
  · simp [Heat.resetAllFull, runEvs, Heat.resetAllTrace, applyEv, updStrip, updDigit, lcdPrintAt]
  · simp [runEvs, Traffic.resetAllTrace, applyEv, updStrip, updDigit, lcdPrintAt]

/-- C7: the traffic relative-drop policy fires exactly when
`LightCurrent <= LightPrevious - 50`; with previous 500 a sample of 450
fires and 451 does not; and the previous reading is replaced by the
current one on every poll cycle, fired or not. -/
theorem c7_traffic_drop_policy :
    (∀ p c : ℤ, (Traffic.loopStep p c).1 = c)
    ∧ (∀ p c : ℤ,
        (Traffic.loopStep p c).2.1 = true ↔ c ≤ p - Traffic.LightDifference)
    ∧ (Traffic.loopStep 500 450).2.1 = true
    ∧ (Traffic.loopStep 500 451).2.1 = false := by
  refine ⟨fun p c => ?_, fun p c => ?_, rfl, rfl⟩
  · unfold Traffic.loopStep
    split <;> rfl
  · unfold Traffic.loopStep
    split
    · rename_i h
      simpa using h
    · rename_i h
      simpa using h

/-- C8: a failed sensor read in the heat sketch skips the whole poll
cycle — no device write happens (only the fixed 1.5 s delay), the trigger
state (`TemperaturePrevious`, `TemperatureTarget`) is retained unchanged,
and a run simply continues with the next cycle. -/
theorem c8_sensor_failure_skips_cycle :
    (∀ (s : Heat.HeatState) (r : Option ℚ),
        Heat.loopStep s none r = (s, false, [Ev.delayMs 1500]))
    ∧ (∀ (s : Heat.HeatState) (r : Option ℚ) (ps : List (Option ℚ × Option ℚ)),
        Heat.loopRun s ((none, r) :: ps) =
          ((Heat.loopRun s ps).1, (Heat.loopRun s ps).2.1,
           Ev.delayMs 1500 :: (Heat.loopRun s ps).2.2)) :=
  ⟨fun _ _ => rfl, fun s r ps => by simp [Heat.loopRun, Heat.loopStep]⟩

/-- C9: `LightPrevious` starts at 0, so on the first poll after startup
no sample in the sensor's 0..1023 range can fire (that would require
`c <= -50`); the sample is only stored as the new previous reading. -/
theorem c9_no_boot_trigger (c : ℤ) (h0 : 0 ≤ c) (h1 : c ≤ 1023) :
    (Traffic.loopStep Traffic.LightPreviousInit c).2.1 = false
    ∧ (Traffic.loopStep Traffic.LightPreviousInit c).1 = c := by
  unfold Traffic.loopStep Traffic.LightPreviousInit Traffic.LightDifference
  rw [if_neg (by omega)]
  exact ⟨rfl, rfl⟩

/-- Witness for C9 at the concrete first sample 512. -/
theorem c9_no_boot_trigger_witness :
    ((0 : ℤ) ≤ 512 ∧ (512 : ℤ) ≤ 1023)
    ∧ (Traffic.loopStep Traffic.LightPreviousInit 512).2.1 = false
    ∧ (Traffic.loopStep Traffic.LightPreviousInit 512).1 = 512 :=
  ⟨⟨by norm_num, by norm_num⟩, c9_no_boot_trigger 512 (by norm_num) (by norm_num)⟩

/-- C10: the watering `resetAll` writes LOW to pin A3 (the trigger input
line itself), while the heat and traffic variants of `resetAll` perform
no `digitalWrite` at all. -/
theorem c10_watering_reset_writes_trigger_pin :
    Ev.pinWrite .a3 false ∈ Watering.resetAllTrace
    ∧ Heat.resetAllTrace.filter isPinWrite = []
    ∧ Traffic.resetAllTrace.filter isPinWrite = [] :=
  ⟨by decide, rfl, rfl⟩

/-- Folding a trace distributes over list append. -/
lemma runEvs_append (d : DevState) (l1 l2 : List Ev) :
    runEvs d (l1 ++ l2) = runEvs (runEvs d l1) l2 :=
  List.foldl_append ..

/-- No primitive call changes a strip's constructor-fixed LED count. -/
lemma numLEDs_applyEv (d : DevState) (e : Ev) (tag : StripId) :
    (stripOf (applyEv d e) tag).numLEDs = (stripOf d tag).numLEDs := by
  cases e <;> cases tag <;>
    first
    | rfl
    | (rename_i s _ _
       cases s <;> simp only [applyEv, updStrip, stripOf] <;> (try split) <;> rfl)
    | (rename_i s
       cases s <;> rfl)
    | (rename_i x _
       cases x <;> rfl)

/-- No trace changes a strip's constructor-fixed LED count. -/
lemma numLEDs_runEvs (d : DevState) (evs : List Ev) (tag : StripId) :
    (stripOf (runEvs d evs) tag).numLEDs = (stripOf d tag).numLEDs := by
  induction evs generalizing d with
  | nil => rfl
  | cons e t ih =>
    show (stripOf (runEvs (applyEv d e) t) tag).numLEDs = (stripOf d tag).numLEDs
    rw [ih (applyEv d e), numLEDs_applyEv]

/-- Effect of the trailing `clear(); show();` pair on the strip it
addresses. -/
lemma clearShow_pixels (d : DevState) (tag : StripId) :
    stripOf (applyEv (applyEv d (Ev.stripClear tag)) (Ev.stripShow tag)) tag
      = { stripOf d tag with
          pixels := List.replicate (stripOf d tag).numLEDs offC,
          shown := List.replicate (stripOf d tag).numLEDs offC } := by
  cases tag <;> rfl

/-- C3: for every declared strip length L >= 1, after `animateStrip`
returns, every pixel of the addressed strip — both the buffer and the
committed frame — equals the off color (0,0,0), whatever pixels were set
during the loop and whatever state the strip started in. -/
theorem c3_animate_leaves_strip_off (tag : StripId) (d : DevState) (L : Nat)
    (hL : 1 ≤ L) :
    (stripOf (runEvs d (animateStripTrace tag L)) tag).pixels
        = List.replicate (stripOf d tag).numLEDs offC
    ∧ (stripOf (runEvs d (animateStripTrace tag L)) tag).shown
        = List.replicate (stripOf d tag).numLEDs offC := by
  constructor <;>
  · rw [animateStripTrace, runEvs_append]
    rw [show ∀ x : DevState, runEvs x [Ev.stripClear tag, Ev.stripShow tag]
          = applyEv (applyEv x (Ev.stripClear tag)) (Ev.stripShow tag) from fun _ => rfl]
    rw [clearShow_pixels]
    simp [numLEDs_runEvs]

/-- Witness for C3 on a concrete 8-LED strip state. -/
def sampleDev : DevState :=
  { stripA := { numLEDs := 8, pixels := List.replicate 8 offC,
                shown := List.replicate 8 offC, begun := true, brightness := 150 },
    stripB := { numLEDs := 10, pixels := List.replicate 10 offC,
                shown := List.replicate 10 offC, begun := true, brightness := 150 },
    d5 := { brightness := 4, content := none },
    d7 := { brightness := 4, content := none },
    lcd := { backlight := ⟨0, 150, 0⟩, blink := false, cursor := (0, 0),
             row0 := blankRow, row1 := blankRow },
    led := ⟨0, 150, 0⟩, a3Out := false }

/-- Witness for C3: the guarantee instantiated at strip A of `sampleDev`
with declared length 8. -/
theorem c3_animate_leaves_strip_off_witness :
    (1 : Nat) ≤ 8
    ∧ ((stripOf (runEvs sampleDev (animateStripTrace .a0strip 8)) .a0strip).pixels
          = List.replicate (stripOf sampleDev .a0strip).numLEDs offC
      ∧ (stripOf (runEvs sampleDev (animateStripTrace .a0strip 8)) .a0strip).shown
          = List.replicate (stripOf sampleDev .a0strip).numLEDs offC) :=
  ⟨by norm_num, c3_animate_leaves_strip_off .a0strip sampleDev 8 (by norm_num)⟩

/-- C4: the `animateStrip` loop runs its index from 0 to the declared
length L inclusive, so its very first frame calls `setPixelColor` with
index -1 and its last frame with index L; under the driver's `uint16_t`
conversion and `n < numLEDs` guard both calls are no-ops that leave the
device state — in particular every in-range pixel — completely
unchanged. -/
theorem c4_boundary_indices_guarded (tag : StripId) (L : Nat) (hL : L ≤ 65535)
    (c : Color) (d : DevState) (hlen : (stripOf d tag).numLEDs = L) :
    (animateStripTrace tag L).take 2
        = [Ev.stripSet tag 0 redC, Ev.stripSet tag (-1) offC]
    ∧ Ev.stripSet tag (L : Int) redC ∈ animateStripTrace tag L
    ∧ applyEv d (Ev.stripSet tag (-1) c) = d
    ∧ applyEv d (Ev.stripSet tag (L : Int) c) = d := by
  have hu1 : uintIndex (-1) = 65535 := by decide
  have hu2 : uintIndex (L : Int) = L := by unfold uintIndex; omega
  refine ⟨?_, ?_, ?_, ?_⟩
  · rw [animateStripTrace, List.range_succ_eq_map]
    simp
  · refine List.mem_append_left _
      (List.mem_flatMap.mpr ⟨L, List.mem_range.mpr (Nat.lt_succ_self L), ?_⟩)
    simp
  · cases tag <;> simp only [stripOf] at hlen <;>
      simp only [applyEv, updStrip, hu1, hlen] <;>
      rw [if_neg (by omega)]
  · cases tag <;> simp only [stripOf] at hlen <;>
      simp only [applyEv, updStrip, hu2, hlen] <;>
      rw [if_neg (by omega)]

/-- Witness for C4 at strip A of `sampleDev` with declared length 8. -/
theorem c4_boundary_indices_guarded_witness :
    ((8 : Nat) ≤ 65535 ∧ (stripOf sampleDev .a0strip).numLEDs = 8)
    ∧ ((animateStripTrace .a0strip 8).take 2
          = [Ev.stripSet .a0strip 0 redC, Ev.stripSet .a0strip (-1) offC]
      ∧ Ev.stripSet .a0strip ((8 : Nat) : Int) redC ∈ animateStripTrace .a0strip 8
      ∧ applyEv sampleDev (Ev.stripSet .a0strip (-1) redC) = sampleDev
      ∧ applyEv sampleDev (Ev.stripSet .a0strip ((8 : Nat) : Int) redC) = sampleDev) :=
  ⟨⟨by norm_num, rfl⟩,
   c4_boundary_indices_guarded .a0strip 8 (by norm_num) redC sampleDev rfl⟩

/-- Poll with a sample strictly below the hysteresis band: the heat loop
takes the "returned to normal" branch, firing nothing, invoking
`resetAll` directly (which disarms the target) and storing the sample as
the new previous reading. -/
lemma loopStep_below (s : Heat.HeatState) (t : ℚ) (r : Option ℚ)
    (h : t < s.TemperaturePrevious + 0.2) :
    Heat.loopStep s (some t) r =
      (⟨t, 0⟩, false,
       [Ev.delayMs 1500, Ev.digitShow .d5 (cIntCast t)] ++ Heat.resetAllTrace) := by
  have h02 : (0 : ℚ) < 0.2 := by norm_num
  have hb : ¬((if s.TemperaturePrevious = 0 then t else s.TemperaturePrevious) + 0.2 ≤ t) := by
    split
    · intro hc; linarith
    · exact not_le.mpr h
  simp only [Heat.loopStep]
  rw [if_neg hb]

/-- Poll inside the band with an armed target not yet reached: no fire,
target stays armed, previous becomes the current sample. -/
lemma loopStep_band_noFire (p t : ℚ) (A : ℤ) (r : Option ℚ) (hp : p ≠ 0)
    (hA : A ≠ 0) (hband : p + 0.2 ≤ t) (hlt : cIntCast t < A) :
    Heat.loopStep ⟨p, A⟩ (some t) r =
      (⟨t, A⟩, false, [Ev.delayMs 1500, Ev.digitShow .d5 (cIntCast t)]) := by
  simp only [Heat.loopStep]
  rw [if_neg hp, if_pos hband, if_neg hA, if_neg (not_le.mpr hlt)]

/-- Poll inside the band with an armed target reached: the alert fires,
the target is disarmed and previous becomes the re-sampled value. -/
lemma loopStep_band_fire (p t : ℚ) (A : ℤ) (r : Option ℚ) (hp : p ≠ 0)
    (hA : A ≠ 0) (hband : p + 0.2 ≤ t) (hge : A ≤ cIntCast t) :
    Heat.loopStep ⟨p, A⟩ (some t) r =
      (⟨r.getD t, 0⟩, true,
       [Ev.delayMs 1500, Ev.digitShow .d5 (cIntCast t)] ++ Heat.fireTrace t) := by
  simp only [Heat.loopStep]
  rw [if_neg hp, if_pos hband, if_neg hA, if_pos hge]

/-- Poll inside the band with no armed target: the target is armed to
`(int)current + MaxCelsiusIncrease` and no fire happens on this poll. -/
lemma loopStep_arm (p t : ℚ) (r : Option ℚ) (hp : p ≠ 0)
    (hband : p + 0.2 ≤ t) :
    Heat.loopStep ⟨p, 0⟩ (some t) r =
      (⟨t, cIntCast t + Heat.MaxCelsiusIncrease⟩, false,
       [Ev.delayMs 1500, Ev.digitShow .d5 (cIntCast t)]) := by
  simp only [Heat.loopStep]
  rw [if_neg hp, if_pos hband]
  simp only [if_true]
  rw [if_neg (by simp only [Heat.MaxCelsiusIncrease]; omega)]

/-- Run segment with an armed target `A`: samples rising by at least the
band each step and staying under `A` do not fire; the final sample
reaching `A` fires exactly once, disarming the target and storing the
re-sampled value. -/
lemma loopRun_armed_fires_once (A : ℤ) (hA : A ≠ 0) (tn r : ℚ)
    (hge : A ≤ cIntCast tn) :
    ∀ (mid : List ℚ) (c : ℚ), c ≠ 0 → (∀ t ∈ mid, t ≠ 0) →
      Heat.bandChain c (mid ++ [tn]) →
      (∀ t ∈ mid, cIntCast t < A) →
      (Heat.loopRun ⟨c, A⟩
          ((mid.map fun t => (some t, none)) ++ [(some tn, some r)])).1 = ⟨r, 0⟩
      ∧ (Heat.loopRun ⟨c, A⟩
          ((mid.map fun t => (some t, none)) ++ [(some tn, some r)])).2.1 = 1 := by
  intro mid
  induction mid with
  | nil =>
    intro c hc _ hch _
    obtain ⟨hband, -⟩ := hch
    simp [Heat.loopRun, loopStep_band_fire c tn A (some r) hc hA hband hge]
  | cons t l ih =>
    intro c hc hmem hch hlt
    obtain ⟨hband, hch2⟩ := hch
    have hstep := loopStep_band_noFire c t A none hc hA hband (hlt t (by simp))
    have hrec := ih t (hmem t (by simp)) (fun x hx => hmem x (by simp [hx]))
      hch2 (fun x hx => hlt x (by simp [hx]))
    simp only [List.map_cons, List.cons_append, Heat.loopRun, hstep]
    exact ⟨hrec.1, by simp [hrec.2]⟩

/-- C6: on every heat poll whose sample is strictly below
`previous + 0.2` the alert never fires and `resetAll` is invoked
directly after the temperature render, with no phase of the alert
choreography; consequently a sample sequence staying inside the
hysteresis band never fires. -/
theorem c6_below_band_never_fires :
    (∀ (s : Heat.HeatState) (t : ℚ) (r : Option ℚ),
        t < s.TemperaturePrevious + 0.2 →
        Heat.loopStep s (some t) r =
          (⟨t, 0⟩, false,
           [Ev.delayMs 1500, Ev.digitShow .d5 (cIntCast t)] ++ Heat.resetAllTrace))
    ∧ (∀ (p : ℚ) (T : ℤ) (ts : List ℚ),
        Heat.belowChain p ts →
        (Heat.loopRun ⟨p, T⟩ (ts.map fun t => (some t, none))).2.1 = 0) := by
  constructor
  · exact fun s t r h => loopStep_below s t r h
  · intro p T ts
    induction ts generalizing p T with
    | nil => intro _; rfl
    | cons t l ih =>
      intro h
      obtain ⟨h1, h2⟩ := h
      simp only [List.map_cons, Heat.loopRun, loopStep_below ⟨p, T⟩ t none h1]
      simpa using ih t 0 h2

/-- Witness for C6: a below-band poll from previous 25 (armed target 7)
at sample 25.1, and an in-band two-sample run, neither firing. -/
theorem c6_below_band_never_fires_witness :
    ((251/10 : ℚ) < 25 + 0.2
      ∧ Heat.loopStep ⟨25, 7⟩ (some (251/10)) none =
          (⟨251/10, 0⟩, false,
           [Ev.delayMs 1500, Ev.digitShow .d5 (cIntCast (251/10))] ++ Heat.resetAllTrace))
    ∧ (Heat.belowChain 25 [251/10, 252/10]
      ∧ (Heat.loopRun ⟨25, 7⟩ ([251/10, 252/10].map fun t => (some t, none))).2.1 = 0) := by
  have hb : Heat.belowChain 25 [251/10, 252/10] :=
    ⟨by norm_num, by norm_num, trivial⟩
  exact ⟨⟨by norm_num,
          c6_below_band_never_fires.1 ⟨25, 7⟩ (251/10) none (by norm_num)⟩,
         hb, c6_below_band_never_fires.2 25 7 [251/10, 252/10] hb⟩

/-- Evaluation of the C cast at 25.3. -/
lemma cIntCast_253d10 : cIntCast (253/10) = 25 := by
  unfold cIntCast
  rw [if_pos (by norm_num : (0:ℚ) ≤ 253/10)]
  norm_num

/-- Evaluation of the C cast at 25.6. -/
lemma cIntCast_256d10 : cIntCast (256/10) = 25 := by
  unfold cIntCast
  rw [if_pos (by norm_num : (0:ℚ) ≤ 256/10)]
  norm_num

/-- Evaluation of the C cast at 26.3. -/
lemma cIntCast_263d10 : cIntCast (263/10) = 26 := by
  unfold cIntCast
  rw [if_pos (by norm_num : (0:ℚ) ≤ 263/10)]
  norm_num

/-- Evaluation of the C cast at 26. -/
lemma cIntCast_26 : cIntCast (26 : ℚ) = 26 := by
  unfold cIntCast
  rw [if_pos (by norm_num : (0:ℚ) ≤ (26:ℚ))]
  norm_num

/-- Evaluation of the C cast at 27. -/
lemma cIntCast_27 : cIntCast (27 : ℚ) = 27 := by
  unfold cIntCast
  rw [if_pos (by norm_num : (0:ℚ) ≤ (27:ℚ))]
  norm_num

/-- C2 counterexample: from previous 25 with no armed target, the
monotonically increasing sample sequence 25.3, 25.45, 26 crosses the
band (25.3 >= 25.2) and arms the target floor(25.3) + 1 = 26, and the
final sample reaches that armed value (floor(26) >= 26), yet the run
fires zero times rather than exactly once: the intermediate below-band
poll at 25.45 invoked `resetAll`, which disarms the target.  Likewise a
single poll from the armed state (previous 25.9, target 26) at sample 26
satisfies floor(26) >= 26 but does not fire, refuting "fires exactly
when floor(current) >= target". -/
theorem c2_incremental_threshold_counterexample :
    ((253/10 : ℚ) < 2545/100 ∧ (2545/100 : ℚ) < 26)
    ∧ (25 : ℚ) + 0.2 ≤ 253/10
    ∧ (Heat.loopStep ⟨25, 0⟩ (some (253/10)) none).1.TemperatureTarget = 26
    ∧ (26 : ℤ) ≤ cIntCast 26
    ∧ (Heat.loopRun ⟨25, 0⟩
        [(some (253/10), none), (some (2545/100), none), (some 26, none)]).2.1 = 0
    ∧ (Heat.loopStep ⟨259/10, 26⟩ (some 26) none).2.1 = false := by
  have s1 : Heat.loopStep ⟨25, 0⟩ (some (253/10)) none
      = (⟨253/10, 26⟩, false,
         [Ev.delayMs 1500, Ev.digitShow .d5 (cIntCast (253/10))]) := by
    rw [loopStep_arm 25 (253/10) none (by norm_num) (by norm_num),
        cIntCast_253d10]
    norm_num [Heat.MaxCelsiusIncrease]
  have s2 : Heat.loopStep ⟨253/10, 26⟩ (some (2545/100)) none
      = (⟨2545/100, 0⟩, false,
         [Ev.delayMs 1500, Ev.digitShow .d5 (cIntCast (2545/100))] ++ Heat.resetAllTrace) :=
    loopStep_below ⟨253/10, 26⟩ (2545/100) none
      (by show (2545/100 : ℚ) < 253/10 + 0.2; norm_num)
  have s3 : Heat.loopStep ⟨2545/100, 0⟩ (some 26) none
      = (⟨26, cIntCast 26 + Heat.MaxCelsiusIncrease⟩, false,
         [Ev.delayMs 1500, Ev.digitShow .d5 (cIntCast 26)]) :=
    loopStep_arm (2545/100) 26 none (by norm_num)
      (by show (2545/100 : ℚ) + 0.2 ≤ 26; norm_num)
  refine ⟨⟨by norm_num, by norm_num⟩, by norm_num, ?_, ?_, ?_, ?_⟩
  · rw [s1]
  · rw [cIntCast_26]
  · simp only [Heat.loopRun, s1, s2, s3]
    simp
  · rw [loopStep_below ⟨259/10, 26⟩ 26 none
        (by show (26 : ℚ) < 259/10 + 0.2; norm_num)]

/-- C2 (amended): for the heat exhibit's incremental-threshold policy,
(a) a poll with current >= previous + 0.2 and no armed target arms the
target to (int)current + 1 without firing on that poll; (b) once a
target is armed, the alert fires exactly when the band condition
current >= previous + 0.2 also holds and (int)current >= target (a
below-band poll instead disarms the target via `resetAll`); (c) for a
sample sequence that crosses previous + 0.2 and then keeps rising by at
least 0.2 per poll (staying in the band) while below the armed target,
until a final sample whose integer part reaches the target, exactly one
FIRE occurs, after which the target is unarmed (0) and previous equals
the post-sequence re-sampled value. -/
theorem c2_incremental_threshold_amended :
    (∀ (s : Heat.HeatState) (t : ℚ) (r : Option ℚ),
        s.TemperaturePrevious ≠ 0 → s.TemperatureTarget = 0 →
        s.TemperaturePrevious + 0.2 ≤ t →
        (Heat.loopStep s (some t) r).1.TemperatureTarget
            = cIntCast t + Heat.MaxCelsiusIncrease
        ∧ (Heat.loopStep s (some t) r).2.1 = false)
    ∧ (∀ (s : Heat.HeatState) (t : ℚ) (r : Option ℚ),
        s.TemperaturePrevious ≠ 0 → s.TemperatureTarget ≠ 0 →
        ((Heat.loopStep s (some t) r).2.1 = true ↔
          (s.TemperaturePrevious + 0.2 ≤ t ∧ s.TemperatureTarget ≤ cIntCast t)))
    ∧ (∀ (p t0 tn r : ℚ) (mid : List ℚ),
        p ≠ 0 → t0 ≠ 0 → 0 ≤ cIntCast t0 → (∀ t ∈ mid, t ≠ 0) →
        Heat.bandChain p (t0 :: mid ++ [tn]) →
        (∀ t ∈ mid, cIntCast t < cIntCast t0 + Heat.MaxCelsiusIncrease) →
        cIntCast t0 + Heat.MaxCelsiusIncrease ≤ cIntCast tn →
        (Heat.loopRun ⟨p, 0⟩
            ((some t0, none) :: (mid.map fun t => (some t, none))
              ++ [(some tn, some r)])).1 = ⟨r, 0⟩
        ∧ (Heat.loopRun ⟨p, 0⟩
            ((some t0, none) :: (mid.map fun t => (some t, none))
              ++ [(some tn, some r)])).2.1 = 1) := by
  refine ⟨?_, ?_, ?_⟩
  · rintro ⟨p, T⟩ t r hp hT hband
    have hT2 : T = 0 := hT
    subst hT2
    rw [loopStep_arm p t r hp hband]
    exact ⟨rfl, rfl⟩
  · rintro ⟨p, A⟩ t r hp hA
    by_cases hband : p + 0.2 ≤ t
    · by_cases hge : A ≤ cIntCast t
      · rw [loopStep_band_fire p t A r hp hA hband hge]
        simpa using ⟨hband, hge⟩
      · rw [loopStep_band_noFire p t A r hp hA hband (not_le.mp hge)]
        simp only [Bool.false_eq_true, false_iff]
        rintro ⟨-, h⟩
        exact hge h
    · rw [loopStep_below ⟨p, A⟩ t r (not_le.mp hband)]
      simp only [Bool.false_eq_true, false_iff]
      rintro ⟨h, -⟩
      exact hband h
  · intro p t0 tn r mid hp ht0 hcast hmem hch hmid hlast
    obtain ⟨hband0, hch2⟩ := hch
    have hA : cIntCast t0 + Heat.MaxCelsiusIncrease ≠ 0 := by
      simp only [Heat.MaxCelsiusIncrease]; omega
    have hrest := loopRun_armed_fires_once
      (cIntCast t0 + Heat.MaxCelsiusIncrease) hA tn r hlast mid t0 ht0 hmem
      hch2 hmid
    simp only [Heat.loopRun, loopStep_arm p t0 none hp hband0]
    exact ⟨hrest.1, by simp [hrest.2]⟩

/-- Witness for the amended C2: arming at (25, unarmed) with 25.3;
the fire-iff at (25.3, target 26) with sample 27; and the run
25.3, 25.6, 26.3 from previous 25 with re-sample 24, firing exactly
once and ending unarmed at previous 24. -/
theorem c2_incremental_threshold_amended_witness :
    ((Heat.loopStep ⟨25, 0⟩ (some (253/10)) none).1.TemperatureTarget
        = cIntCast (253/10) + Heat.MaxCelsiusIncrease
      ∧ (Heat.loopStep ⟨25, 0⟩ (some (253/10)) none).2.1 = false)
    ∧ ((Heat.loopStep ⟨253/10, 26⟩ (some 27) none).2.1 = true ↔
        ((253/10 : ℚ) + 0.2 ≤ 27 ∧ (26 : ℤ) ≤ cIntCast 27))
    ∧ (Heat.bandChain 25 [253/10, 256/10, 263/10]
      ∧ (Heat.loopRun ⟨25, 0⟩
          [(some (253/10), none), (some (256/10), none),
           (some (263/10), some 24)]).1 = ⟨24, 0⟩
      ∧ (Heat.loopRun ⟨25, 0⟩
          [(some (253/10), none), (some (256/10), none),
           (some (263/10), some 24)]).2.1 = 1) := by
  have hch : Heat.bandChain 25 [253/10, 256/10, 263/10] :=
    ⟨by norm_num, by norm_num, by norm_num, trivial⟩
  have hmem : ∀ t ∈ [(256/10 : ℚ)], t ≠ 0 := by
    intro t ht
    rw [List.mem_singleton] at ht
    subst ht
    norm_num
  have hmid : ∀ t ∈ [(256/10 : ℚ)],
      cIntCast t < cIntCast (253/10) + Heat.MaxCelsiusIncrease := by
    intro t ht
    rw [List.mem_singleton] at ht
    subst ht
    rw [cIntCast_256d10, cIntCast_253d10]
    norm_num [Heat.MaxCelsiusIncrease]
  have hlast : cIntCast (253/10) + Heat.MaxCelsiusIncrease ≤ cIntCast (263/10) := by
    rw [cIntCast_253d10, cIntCast_263d10]
    norm_num [Heat.MaxCelsiusIncrease]
  refine ⟨c2_incremental_threshold_amended.1 ⟨25, 0⟩ (253/10) none
            (by norm_num) rfl (by norm_num),
          c2_incremental_threshold_amended.2.1 ⟨253/10, 26⟩ 27 none
            (by norm_num) (by norm_num),
          hch, ?_⟩
  exact c2_incremental_threshold_amended.2.2 25 (253/10) (263/10) 24 [256/10]
    (by norm_num) (by norm_num) (by rw [cIntCast_253d10]; norm_num) hmem hch hmid hlast
